import Mathlib

/-!
Verification of the wc_lang expression analysis engine against its design
specification. The engine lexes a short mathematical expression, resolves
each free identifier against a set of typed namespaces (detecting ambiguous
and unresolvable references), extracts the distinct referenced objects
grouped by kind, and evaluates the expression under a restricted numeric
semantics.

The repository snapshot carries the engine's callers (two Jupyter
notebooks with recorded outputs, which serve as the concrete fixtures
below) but not `wc_lang/expression_utils.py` itself, so the engine's
internals are modelled from the design specification, keeping the names
the notebooks show (WcLangExpression, TokCodes, WcLangToken, tokenize,
test_eval_expr, valid_functions, valid_used_models).
-/

deriving instance DecidableEq for Except

namespace WcLang

/-- Modelled from the spec: ObjectKind is the enum naming each referenceable
domain-object category (Species, Parameter, Observable, Function) together
with the remaining bearer kind StopCondition shown in the notebooks. -/
inductive ObjectKind
  | Species
  | Parameter
  | Observable
  | Function
  | StopCondition
  deriving DecidableEq, Repr

/-- Modelled from the spec: an opaque object handle, unique per (kind, id)
as the host schema layer guarantees identifier uniqueness within a kind. -/
structure ObjectHandle where
  kind : ObjectKind
  id : String
  deriving DecidableEq, Repr

/-- Modelled from the spec: the NamespaceRegistry is a mapping from
ObjectKind to a mapping from identifier string to object handle, supplied
per analysis call and never mutated by the engine. -/
abbrev Registry := List (ObjectKind × List (String × ObjectHandle))

/-- Look one identifier up in one kind's namespace of the registry. -/
def Registry.lookupId (reg : Registry) (k : ObjectKind) (id : String) :
    Option ObjectHandle :=
  match reg.find? (fun p => p.1 = k) with
  | none => none
  | some (_, m) =>
    match m.find? (fun p => p.1 = id) with
    | none => none
    | some (_, h) => some h

/-- Modelled from the spec: TokenKind of a lexical token. -/
inductive TokenKind
  | Number
  | Name
  | Operator
  | Punctuation
  | Other
  deriving DecidableEq, Repr

/-- Modelled from the spec: a lexical token, `{ code, text }` (source
positions are not needed by any property proved here). -/
structure Token where
  code : TokenKind
  text : String
  deriving DecidableEq, Repr

def isNameStart (c : Char) : Bool := c.isAlpha || c = '_'

def isNameChar (c : Char) : Bool := c.isAlphanum || c = '_'

def isOperatorChar (c : Char) : Bool :=
  c = '+' || c = '-' || c = '*' || c = '/' || c = '<' || c = '>' || c = '='

def isPunctChar (c : Char) : Bool :=
  c = '(' || c = ')' || c = ',' || c = '.' || c = '[' || c = ']'

/-- Modelled from the spec: the lexer splits an expression string into a
flat ordered sequence of tokens (numbers, identifiers, operators,
punctuation); unrecognized characters become Other tokens. Fuel-indexed
recursion; each step consumes at least one character, so fuel equal to the
input length suffices. -/
def lexAux : Nat → List Char → List Token
  | 0, _ => []
  | _ + 1, [] => []
  | fuel + 1, c :: cs =>
    if c = ' ' then lexAux fuel cs
    else if isNameStart c then
      Token.mk TokenKind.Name (String.mk (c :: cs.takeWhile isNameChar)) ::
        lexAux fuel (cs.dropWhile isNameChar)
    else if c.isDigit then
      Token.mk TokenKind.Number (String.mk (c :: cs.takeWhile Char.isDigit)) ::
        lexAux fuel (cs.dropWhile Char.isDigit)
    else if isOperatorChar c then
      Token.mk TokenKind.Operator (String.mk [c]) :: lexAux fuel cs
    else if isPunctChar c then
      Token.mk TokenKind.Punctuation (String.mk [c]) :: lexAux fuel cs
    else
      Token.mk TokenKind.Other (String.mk [c]) :: lexAux fuel cs

/-- Lex an expression string. -/
def lex (s : String) : List Token := lexAux (s.length + 1) s.data

/-- Token codes used in parsed expressions, as the notebooks print them:
wc_lang_obj_id (a resolved object reference), math_fun_id (a whitelisted
math function name), other. -/
inductive TokCodes
  | wc_lang_obj_id
  | math_fun_id
  | other
  deriving DecidableEq, Repr

/-- The annotated token, with the field names the notebooks print:
`WcLangToken(tok_code, token_string, model_type, model_id, model)`. -/
structure WcLangToken where
  tok_code : TokCodes
  token_string : String
  model_type : Option ObjectKind
  model_id : Option String
  model : Option ObjectHandle
  deriving DecidableEq, Repr

/-- Modelled from the spec: a structured resolution error referencing the
bearer's type, the attribute name and the offending text; an ambiguity
error carries every matching kind. -/
inductive ResolutionError
  | ambiguous (bearer : ObjectKind) (attr : String) (id : String)
      (kinds : List ObjectKind)
  | invalid_kind (bearer : ObjectKind) (attr : String) (kindName : String)
      (id : String)
  | absent_from_kind (bearer : ObjectKind) (attr : String) (kindName : String)
      (id : String)
  deriving DecidableEq, Repr

/-- An identifier span produced by merging contiguous name tokens:
either a qualified `Kind.id` form or a plain (possibly compound
`id[id2]`) form. -/
inductive IdSpan
  | qualified (kindName : String) (id : String)
  | plain (id : String)
  deriving DecidableEq, Repr

/-- One element of the merged stream: an identifier span to resolve, or a
pass-through token. -/
inductive Item
  | ident (s : IdSpan)
  | pass (t : Token)
  deriving DecidableEq, Repr

/-- Modelled from the spec: merge contiguous Name tokens that form a
compound identifier: `Name '.' Name` gives the qualified form `Kind.id`;
`Name '[' Name ']'` gives the compound form `id[id2]`; any other Name is a
plain identifier; every other token passes through. Fuel-indexed; each
step consumes at least one token. -/
def mergeSpans : Nat → List Token → List Item
  | 0, _ => []
  | _ + 1, [] => []
  | fuel + 1, Token.mk TokenKind.Name a :: Token.mk TokenKind.Punctuation "." ::
      Token.mk TokenKind.Name b :: rest =>
    Item.ident (IdSpan.qualified a b) :: mergeSpans fuel rest
  | fuel + 1, Token.mk TokenKind.Name a :: Token.mk TokenKind.Punctuation "[" ::
      Token.mk TokenKind.Name b :: Token.mk TokenKind.Punctuation "]" :: rest =>
    Item.ident (IdSpan.plain (a ++ "[" ++ b ++ "]")) :: mergeSpans fuel rest
  | fuel + 1, Token.mk TokenKind.Name a :: rest =>
    Item.ident (IdSpan.plain a) :: mergeSpans fuel rest
  | fuel + 1, t :: rest => Item.pass t :: mergeSpans fuel rest

/-- Parse a kind name appearing as the qualifier of a `Kind.id` form. -/
def kindOfString : String → Option ObjectKind
  | "Species" => some ObjectKind.Species
  | "Parameter" => some ObjectKind.Parameter
  | "Observable" => some ObjectKind.Observable
  | "Function" => some ObjectKind.Function
  | "StopCondition" => some ObjectKind.StopCondition
  | _ => none

/-- Modelled from the spec: the collaborator contract `valid_used_models`,
the subset of ObjectKinds valid as references for a bearer type. The
notebooks state that a Function can reference Observables, Parameters and
other Functions (StopCondition is like Function), and an Observable can
reference Species and other Observables. -/
def valid_used_models : ObjectKind → List ObjectKind
  | ObjectKind.Function =>
    [ObjectKind.Observable, ObjectKind.Parameter, ObjectKind.Function]
  | ObjectKind.StopCondition =>
    [ObjectKind.Observable, ObjectKind.Parameter, ObjectKind.Function]
  | ObjectKind.Observable => [ObjectKind.Observable, ObjectKind.Species]
  | _ => []

/-- The whitelisted-function table, as recorded in the Math expressions
notebook for FunctionExpression.Meta.valid_functions: ceil, floor, exp,
pow, log, log10, min, max. StopCondition expressions share it; kinds
without math functions have an empty table. -/
def valid_functions : ObjectKind → List String
  | ObjectKind.Function =>
    ["ceil", "floor", "exp", "pow", "log", "log10", "min", "max"]
  | ObjectKind.StopCondition =>
    ["ceil", "floor", "exp", "pow", "log", "log10", "min", "max"]
  | _ => []

/-- Collect the (kind, handle) matches for an unqualified identifier
across the namespaces valid for the bearer type, in the deterministic
order of the bearer's valid-kind list. -/
def idMatches (reg : Registry) (valid : List ObjectKind) (id : String) :
    List (ObjectKind × ObjectHandle) :=
  valid.filterMap (fun k => (reg.lookupId k id).map (fun h => (k, h)))

/-- Modelled from the spec: resolve one identifier span. A qualified form
short-circuits to the exactly-named kind (error if the kind is invalid for
the bearer or the id absent from it). An unqualified form with zero
matches is a whitelisted function name or `other`; exactly one match is an
object reference; two or more matches yield one ambiguity error naming
every matching kind and no token. -/
def resolveIdSpan (bearer : ObjectKind) (attr : String) (reg : Registry) :
    IdSpan → List WcLangToken × List ResolutionError
  | IdSpan.qualified kn id =>
    match kindOfString kn with
    | none => ([], [ResolutionError.invalid_kind bearer attr kn id])
    | some k =>
      if k ∈ valid_used_models bearer then
        match reg.lookupId k id with
        | some h =>
          ([WcLangToken.mk TokCodes.wc_lang_obj_id (kn ++ "." ++ id)
              (some k) (some id) (some h)], [])
        | none => ([], [ResolutionError.absent_from_kind bearer attr kn id])
      else ([], [ResolutionError.invalid_kind bearer attr kn id])
  | IdSpan.plain id =>
    match idMatches reg (valid_used_models bearer) id with
    | [] =>
      if id ∈ valid_functions bearer then
        ([WcLangToken.mk TokCodes.math_fun_id id none none none], [])
      else
        ([WcLangToken.mk TokCodes.other id none none none], [])
    | [(k, h)] =>
      ([WcLangToken.mk TokCodes.wc_lang_obj_id id (some k) (some id) (some h)], [])
    | ms =>
      ([], [ResolutionError.ambiguous bearer attr id (ms.map Prod.fst)])

/-- The pass-through annotation of a non-identifier token. -/
def passTok (t : Token) : WcLangToken :=
  WcLangToken.mk TokCodes.other t.text none none none

/-- Resolve a merged item stream, accumulating annotated tokens and
errors; tokenization never aborts early, so every item is processed and
all errors of one pass are reported together. -/
def resolveItems (bearer : ObjectKind) (attr : String) (reg : Registry) :
    List Item → List WcLangToken × List ResolutionError
  | [] => ([], [])
  | Item.pass t :: rest =>
    (passTok t :: (resolveItems bearer attr reg rest).1,
     (resolveItems bearer attr reg rest).2)
  | Item.ident s :: rest =>
    ((resolveIdSpan bearer attr reg s).1 ++ (resolveItems bearer attr reg rest).1,
     (resolveIdSpan bearer attr reg s).2 ++ (resolveItems bearer attr reg rest).2)

/-- The analysis object, with the constructor-argument names of the
notebooks: `WcLangExpression(obj_type, 'expr_attr', expr, objs)`. -/
structure WcLangExpression where
  model_class : ObjectKind
  attr : String
  expression : String
  objects : Registry
  deriving DecidableEq, Repr

/-- The lexical tokens of the expression. -/
def WcLangExpression.tokens (e : WcLangExpression) : List Token :=
  lex e.expression

/-- Modelled from the spec: `tokenize` produces the annotated token
stream together with the list of resolution errors. -/
def WcLangExpression.tokenize (e : WcLangExpression) :
    List WcLangToken × List ResolutionError :=
  resolveItems e.model_class e.attr e.objects
    (mergeSpans (e.tokens.length + 1) e.tokens)

/-- The annotated tokens produced by tokenization. -/
def WcLangExpression.wc_tokens (e : WcLangExpression) : List WcLangToken :=
  e.tokenize.1

/-- The resolution errors produced by tokenization. -/
def WcLangExpression.errors (e : WcLangExpression) : List ResolutionError :=
  e.tokenize.2

/-! ### Dependency extraction -/

/-- Modelled from the spec: the distinct object handles of one kind
referenced by a resolved token stream, deduplicated. -/
def extract_deps (wts : List WcLangToken) (k : ObjectKind) :
    List ObjectHandle :=
  (wts.filterMap (fun wt =>
    if wt.model_type = some k then wt.model else none)).dedup

/-- Modelled from the spec: `extract` maps each kind valid for the bearer
to the deduplicated set of referenced handles; it is invoked only when
resolution produced zero errors, otherwise it refuses with the error
list. -/
def WcLangExpression.extract (e : WcLangExpression) :
    Except (List ResolutionError) (List (ObjectKind × List ObjectHandle)) :=
  if e.errors = [] then
    Except.ok ((valid_used_models e.model_class).map
      (fun k => (k, extract_deps e.wc_tokens k)))
  else Except.error e.errors

/-! ### Evaluation -/

/-- An exact rational number in lowest terms with positive denominator.
The source evaluates with IEEE floats; every value the verified scenarios
produce is a small integer, exactly representable, so the numeric
semantics is modelled with exact rationals. (Mathlib's ℚ is not used
because its arithmetic is irreducible to the kernel.) -/
structure Q where
  num : Int
  den : Nat
  deriving DecidableEq, Repr

/-- Build a rational in lowest terms with positive denominator from a
numerator and a nonzero denominator. -/
def mkQ (n : Int) (d : Int) : Q :=
  if d = 0 then Q.mk 0 1
  else
    let s : Int := if d < 0 then -1 else 1
    let n2 := s * n
    let d2 := (s * d).toNat
    let g := n2.natAbs.gcd d2
    Q.mk (n2 / (g : Int)) (d2 / g)

instance (n : Nat) : OfNat Q n := ⟨Q.mk (Int.ofNat n) 1⟩

def qAdd (a b : Q) : Q :=
  mkQ (a.num * (b.den : Int) + b.num * (a.den : Int)) ((a.den * b.den : Nat) : Int)

def qSub (a b : Q) : Q :=
  mkQ (a.num * (b.den : Int) - b.num * (a.den : Int)) ((a.den * b.den : Nat) : Int)

def qMul (a b : Q) : Q := mkQ (a.num * b.num) ((a.den * b.den : Nat) : Int)

def qDiv (a b : Q) : Q := mkQ (a.num * (b.den : Int)) ((a.den : Int) * b.num)

def qLt (a b : Q) : Bool := a.num * (b.den : Int) < b.num * (a.den : Int)

def qMax (a b : Q) : Q := if qLt a b then b else a

def qMin (a b : Q) : Q := if qLt a b then a else b

def qFloor (a : Q) : Int := a.num.fdiv (a.den : Int)

def qCeil (a : Q) : Int := -((-a.num).fdiv (a.den : Int))

def qPow (a : Q) (k : Nat) : Q := Q.mk (a.num ^ k) (a.den ^ k)

/-- A value of the restricted numeric semantics: a number or a boolean. -/
inductive Value
  | num (q : Q)
  | boolean (b : Bool)
  deriving DecidableEq, Repr

/-- The two result types an expression can have. -/
inductive ValType
  | numType
  | boolType
  deriving DecidableEq, Repr

/-- The result type of a value. -/
def valType : Value → ValType
  | Value.num _ => ValType.numType
  | Value.boolean _ => ValType.boolType

/-- Modelled from the spec: the evaluation-failure taxonomy — wrong result
type, malformed restricted-grammar input, division by zero, wrong arity,
an undefined bare name actually used, a transcendental whitelisted
function (float-valued in the source, outside this exact-rational model),
or an attempt to evaluate a token stream that still carries resolution
errors. -/
inductive EvalError
  | wrong_result_type (expression : String) (bearer : ObjectKind)
      (expected : ValType) (actual : ValType)
  | malformed
  | division_by_zero
  | wrong_arity (f : String)
  | undefined_name (id : String)
  | transcendental (f : String)
  | unresolved_tokens (errs : List ResolutionError)
  deriving DecidableEq, Repr

/-- The expression result type each bearer kind requires: a StopCondition
must return a boolean, every other bearer a number. -/
def expected_type : ObjectKind → ValType
  | ObjectKind.StopCondition => ValType.boolType
  | _ => ValType.numType

/-- Addition on values (numbers only). -/
def vAdd : Value → Value → Except EvalError Value
  | Value.num a, Value.num b => Except.ok (Value.num (qAdd a b))
  | _, _ => Except.error EvalError.malformed

/-- Subtraction on values (numbers only). -/
def vSub : Value → Value → Except EvalError Value
  | Value.num a, Value.num b => Except.ok (Value.num (qSub a b))
  | _, _ => Except.error EvalError.malformed

/-- Multiplication on values (numbers only). -/
def vMul : Value → Value → Except EvalError Value
  | Value.num a, Value.num b => Except.ok (Value.num (qMul a b))
  | _, _ => Except.error EvalError.malformed

/-- Division on values (numbers only; division by zero is an error). -/
def vDiv : Value → Value → Except EvalError Value
  | Value.num a, Value.num b =>
    if b.num = 0 then Except.error EvalError.division_by_zero
    else Except.ok (Value.num (qDiv a b))
  | _, _ => Except.error EvalError.malformed

/-- Comparison on values (numbers only, yielding a boolean). -/
def vCmp (op : String) : Value → Value → Except EvalError Value
  | Value.num a, Value.num b =>
    if op = "<" then Except.ok (Value.boolean (qLt a b))
    else if op = ">" then Except.ok (Value.boolean (qLt b a))
    else Except.error EvalError.malformed
  | _, _ => Except.error EvalError.malformed

/-- Interpret every argument as a number. -/
def asNums : List Value → Option (List Q)
  | [] => some []
  | Value.num q :: rest => (asNums rest).map (fun qs => q :: qs)
  | Value.boolean _ :: _ => none

/-- Modelled from the spec: apply a whitelisted function to its
arguments, checking arity; the transcendental functions are float-valued
in the source and fall outside the exact-rational model. -/
def applyFun (f : String) (args : List Value) : Except EvalError Value :=
  match asNums args with
  | none => Except.error EvalError.malformed
  | some qs =>
    match f, qs with
    | "max", q :: rest => Except.ok (Value.num (rest.foldl qMax q))
    | "min", q :: rest => Except.ok (Value.num (rest.foldl qMin q))
    | "ceil", [q] => Except.ok (Value.num (Q.mk (qCeil q) 1))
    | "floor", [q] => Except.ok (Value.num (Q.mk (qFloor q) 1))
    | "pow", [a, b] =>
      if b.den = 1 ∧ 0 ≤ b.num then Except.ok (Value.num (qPow a b.num.toNat))
      else Except.error (EvalError.transcendental "pow")
    | "exp", [_] => Except.error (EvalError.transcendental "exp")
    | "log", [_] => Except.error (EvalError.transcendental "log")
    | "log10", [_] => Except.error (EvalError.transcendental "log10")
    | _, _ => Except.error (EvalError.wrong_arity f)

/-- The numeric value of a string of decimal digits. -/
def digitsToNat (cs : List Char) : Nat :=
  cs.foldl (fun acc c => 10 * acc + (c.toNat - 48)) 0

/-- Parse a numeric-literal token text (a nonempty string of decimal
digits, which is what the lexer produces for a Number token). -/
def litToNat? (s : String) : Option Nat :=
  match s.data with
  | [] => none
  | cs => if cs.all Char.isDigit then some (digitsToNat cs) else none

/-- Whether an annotated token is the `other`-coded token with the given
text (an operator or punctuation pass-through). -/
def isOp (wt : WcLangToken) (s : String) : Bool :=
  wt.tok_code = TokCodes.other && wt.token_string = s

mutual

/-- Modelled from the spec: the sandboxed recursive-descent evaluator,
comparison level: `add (('<' | '>') add)?`. Fuel-indexed. -/
def parseCmp (v : ObjectHandle → Value) :
    Nat → List WcLangToken → Except EvalError (Value × List WcLangToken)
  | 0, _ => Except.error EvalError.malformed
  | fuel + 1, toks => do
    let (a, r) ← parseAdd v fuel toks
    match r with
    | op :: r2 =>
      if isOp op "<" || isOp op ">" then do
        let (b, r3) ← parseAdd v fuel r2
        let c ← vCmp op.token_string a b
        pure (c, r3)
      else pure (a, r)
    | [] => pure (a, r)

/-- Additive level: `mul (('+' | '-') mul)*`. -/
def parseAdd (v : ObjectHandle → Value) :
    Nat → List WcLangToken → Except EvalError (Value × List WcLangToken)
  | 0, _ => Except.error EvalError.malformed
  | fuel + 1, toks => do
    let (a, r) ← parseMul v fuel toks
    parseAddRest v fuel a r

/-- The iterated tail of the additive level. -/
def parseAddRest (v : ObjectHandle → Value) :
    Nat → Value → List WcLangToken → Except EvalError (Value × List WcLangToken)
  | 0, _, _ => Except.error EvalError.malformed
  | fuel + 1, a, toks =>
    match toks with
    | op :: r2 =>
      if isOp op "+" then do
        let (b, r3) ← parseMul v fuel r2
        let c ← vAdd a b
        parseAddRest v fuel c r3
      else if isOp op "-" then do
        let (b, r3) ← parseMul v fuel r2
        let c ← vSub a b
        parseAddRest v fuel c r3
      else pure (a, toks)
    | [] => pure (a, toks)

/-- Multiplicative level: `atom (('*' | '/') atom)*`. -/
def parseMul (v : ObjectHandle → Value) :
    Nat → List WcLangToken → Except EvalError (Value × List WcLangToken)
  | 0, _ => Except.error EvalError.malformed
  | fuel + 1, toks => do
    let (a, r) ← parseAtom v fuel toks
    parseMulRest v fuel a r

/-- The iterated tail of the multiplicative level. -/
def parseMulRest (v : ObjectHandle → Value) :
    Nat → Value → List WcLangToken → Except EvalError (Value × List WcLangToken)
  | 0, _, _ => Except.error EvalError.malformed
  | fuel + 1, a, toks =>
    match toks with
    | op :: r2 =>
      if isOp op "*" then do
        let (b, r3) ← parseAtom v fuel r2
        let c ← vMul a b
        parseMulRest v fuel c r3
      else if isOp op "/" then do
        let (b, r3) ← parseAtom v fuel r2
        let c ← vDiv a b
        parseMulRest v fuel c r3
      else pure (a, toks)
    | [] => pure (a, toks)

/-- Atom level: a numeric literal, a resolved object reference (a
reference to a Function object may be called with empty parentheses and
evaluates to its bound value), a whitelisted function call, or a
parenthesized expression; an undefined bare name used as a value is an
evaluation-time failure, and any construct outside the restricted grammar
is rejected. -/
def parseAtom (v : ObjectHandle → Value) :
    Nat → List WcLangToken → Except EvalError (Value × List WcLangToken)
  | 0, _ => Except.error EvalError.malformed
  | _ + 1, [] => Except.error EvalError.malformed
  | fuel + 1, wt :: rest =>
    match wt.tok_code with
    | TokCodes.wc_lang_obj_id =>
      match wt.model with
      | some h =>
        match rest with
        | o :: c :: r2 =>
          if isOp o "(" && isOp c ")" then Except.ok (v h, r2)
          else Except.ok (v h, rest)
        | _ => Except.ok (v h, rest)
      | none => Except.error EvalError.malformed
    | TokCodes.math_fun_id =>
      match rest with
      | o :: r2 =>
        if isOp o "(" then do
          let (args, r3) ← parseArgs v fuel r2
          applyFun wt.token_string args >>= fun c => pure (c, r3)
        else Except.error EvalError.malformed
      | [] => Except.error EvalError.malformed
    | TokCodes.other =>
      if isOp wt "(" then do
        let (a, r2) ← parseCmp v fuel rest
        match r2 with
        | c :: r3 =>
          if isOp c ")" then pure (a, r3) else Except.error EvalError.malformed
        | [] => Except.error EvalError.malformed
      else
        match litToNat? wt.token_string with
        | some n => Except.ok (Value.num (Q.mk (Int.ofNat n) 1), rest)
        | none => Except.error (EvalError.undefined_name wt.token_string)

/-- Parse a comma-separated argument list up to and including the closing
parenthesis. -/
def parseArgs (v : ObjectHandle → Value) :
    Nat → List WcLangToken → Except EvalError (List Value × List WcLangToken)
  | 0, _ => Except.error EvalError.malformed
  | fuel + 1, toks => do
    let (a, r) ← parseCmp v fuel toks
    match r with
    | s :: r2 =>
      if isOp s "," then do
        let (args, r3) ← parseArgs v fuel r2
        pure (a :: args, r3)
      else if isOp s ")" then pure ([a], r2)
      else Except.error EvalError.malformed
    | [] => Except.error EvalError.malformed

end

/-- Modelled from the spec: `eval` substitutes each object reference with
the value supplied by `value_of` and evaluates under the restricted
grammar; an expression whose resolution produced errors is refused with an
explicit error state rather than evaluated. -/
def WcLangExpression.eval_expr (e : WcLangExpression)
    (value_of : ObjectHandle → Value) : Except EvalError Value :=
  if e.errors = [] then
    match parseCmp value_of (4 * e.wc_tokens.length + 8) e.wc_tokens with
    | Except.ok (v, []) => Except.ok v
    | Except.ok (_, _ :: _) => Except.error EvalError.malformed
    | Except.error er => Except.error er
  else Except.error (EvalError.unresolved_tokens e.errors)

/-- Modelled from the spec: `test_eval` binds every referenced object to
one fixed test value and checks that the result type matches what the
bearer type requires; a mismatch is an EvalError naming the expected type,
never a silent coercion. -/
def WcLangExpression.test_eval_expr (e : WcLangExpression) (test_val : Q) :
    Except EvalError Value :=
  match e.eval_expr (fun _ => Value.num test_val) with
  | Except.error er => Except.error er
  | Except.ok v =>
    if valType v = expected_type e.model_class then Except.ok v
    else
      Except.error (EvalError.wrong_result_type e.expression e.model_class
        (expected_type e.model_class) (valType v))

/-! ### Fixtures: the reference objects the notebooks construct -/

/-- The reference objects of the Expression utils demo notebook:
Species test_id[c] and x_id[c], Parameters test_id and param_id,
Observables test_id and obs_id, Functions fun_1 and fun_2. -/
def demo_objects : Registry :=
  [(ObjectKind.Species,
     [("test_id[c]", ObjectHandle.mk ObjectKind.Species "test_id[c]"),
      ("x_id[c]", ObjectHandle.mk ObjectKind.Species "x_id[c]")]),
   (ObjectKind.Parameter,
     [("test_id", ObjectHandle.mk ObjectKind.Parameter "test_id"),
      ("param_id", ObjectHandle.mk ObjectKind.Parameter "param_id")]),
   (ObjectKind.Observable,
     [("test_id", ObjectHandle.mk ObjectKind.Observable "test_id"),
      ("obs_id", ObjectHandle.mk ObjectKind.Observable "obs_id")]),
   (ObjectKind.Function,
     [("fun_1", ObjectHandle.mk ObjectKind.Function "fun_1"),
      ("fun_2", ObjectHandle.mk ObjectKind.Function "fun_2")])]

/-- The notebook's `make_wc_lang_expr`: keep only the namespaces valid for
the bearer type and build the analysis object with attribute name
`expr_attr`. -/
def make_wc_lang_expr (expr : String) (obj_type : ObjectKind) :
    WcLangExpression :=
  WcLangExpression.mk obj_type "expr_attr" expr
    (demo_objects.filter (fun p => p.1 ∈ valid_used_models obj_type))

/-- The reference objects of the Math expressions notebook:
Parameters a, b, duped_id; Observables ccc, ddd, duped_id; Functions f, g,
duped_id; Species spec_type_0[comp] … spec_type_3[comp]. -/
def model_objects : Registry :=
  [(ObjectKind.Observable,
     [("ccc", ObjectHandle.mk ObjectKind.Observable "ccc"),
      ("ddd", ObjectHandle.mk ObjectKind.Observable "ddd"),
      ("duped_id", ObjectHandle.mk ObjectKind.Observable "duped_id")]),
   (ObjectKind.Parameter,
     [("a", ObjectHandle.mk ObjectKind.Parameter "a"),
      ("b", ObjectHandle.mk ObjectKind.Parameter "b"),
      ("duped_id", ObjectHandle.mk ObjectKind.Parameter "duped_id")]),
   (ObjectKind.Function,
     [("f", ObjectHandle.mk ObjectKind.Function "f"),
      ("g", ObjectHandle.mk ObjectKind.Function "g"),
      ("duped_id", ObjectHandle.mk ObjectKind.Function "duped_id")]),
   (ObjectKind.Species,
     [("spec_type_0[comp]", ObjectHandle.mk ObjectKind.Species "spec_type_0[comp]"),
      ("spec_type_1[comp]", ObjectHandle.mk ObjectKind.Species "spec_type_1[comp]"),
      ("spec_type_2[comp]", ObjectHandle.mk ObjectKind.Species "spec_type_2[comp]"),
      ("spec_type_3[comp]", ObjectHandle.mk ObjectKind.Species "spec_type_3[comp]")])]

/-- An expression as `ExpressionMethods.make_obj` builds it in the Math
expressions notebook: the bearer's expression attribute over the model's
reference objects. -/
def make_obj_expr (obj_type : ObjectKind) (expr : String) : WcLangExpression :=
  WcLangExpression.mk obj_type "expression" expr model_objects

/-! ### Claim theorems -/

/-- C1: an identifier occurring unqualified and present in two or more
namespaces valid for the bearer type yields exactly one ambiguity error
naming every matching kind, and no annotated token for that occurrence;
concretely, tokenizing 'test_id + obs_id' as a Function expression, where
test_id is both an Observable and a Parameter id, reports exactly the one
ambiguity error naming both kinds and resolves no token to test_id. -/
theorem ambiguous_reference_single_error :
    (∀ (bearer : ObjectKind) (attr id : String) (reg : Registry)
        (ks : List ObjectKind),
      (idMatches reg (valid_used_models bearer) id).map Prod.fst = ks →
      2 ≤ ks.length →
      resolveIdSpan bearer attr reg (IdSpan.plain id) =
        ([], [ResolutionError.ambiguous bearer attr id ks])) ∧
    (make_wc_lang_expr "test_id + obs_id" ObjectKind.Function).errors =
      [ResolutionError.ambiguous ObjectKind.Function "expr_attr" "test_id"
        [ObjectKind.Observable, ObjectKind.Parameter]] ∧
    (∀ wt ∈ (make_wc_lang_expr "test_id + obs_id" ObjectKind.Function).wc_tokens,
      wt.token_string ≠ "test_id" ∧ wt.model_id ≠ some "test_id") := by
  refine ⟨?_, by decide, by decide⟩
  intro bearer attr id reg ks hm hlen
  cases hmm : idMatches reg (valid_used_models bearer) id with
  | nil => rw [hmm] at hm; subst hm; simp at hlen
  | cons p t =>
    cases t with
    | nil => rw [hmm] at hm; subst hm; simp at hlen
    | cons p2 t2 =>
      subst hm
      simp [resolveIdSpan, hmm]

/-- C1 witness: the ambiguity rule applied to the concrete demo registry,
where test_id matches both the Observable and the Parameter namespace. -/
theorem ambiguous_reference_single_error_witness :
    (idMatches demo_objects (valid_used_models ObjectKind.Function)
        "test_id").map Prod.fst =
      [ObjectKind.Observable, ObjectKind.Parameter] ∧
    2 ≤ ([ObjectKind.Observable, ObjectKind.Parameter] : List ObjectKind).length ∧
    resolveIdSpan ObjectKind.Function "expr_attr" demo_objects
        (IdSpan.plain "test_id") =
      ([], [ResolutionError.ambiguous ObjectKind.Function "expr_attr" "test_id"
        [ObjectKind.Observable, ObjectKind.Parameter]]) :=
  ⟨by decide, by decide,
    ambiguous_reference_single_error.1 ObjectKind.Function "expr_attr" "test_id"
      demo_objects [ObjectKind.Observable, ObjectKind.Parameter]
      (by decide) (by decide)⟩

/-- C2: an expression whose tokenization produced one or more resolution
errors is refused: dependency extraction returns the error list instead
of a mapping, and both evaluation and test evaluation return an explicit
unresolved-tokens error state rather than a result. -/
theorem unresolved_expression_refuses_use :
    ∀ (e : WcLangExpression) (v : ObjectHandle → Value) (tv : Q),
      e.errors ≠ [] →
      e.extract = Except.error e.errors ∧
      e.eval_expr v = Except.error (EvalError.unresolved_tokens e.errors) ∧
      e.test_eval_expr tv =
        Except.error (EvalError.unresolved_tokens e.errors) := by
  intro e v tv h
  have h2 : ∀ w : ObjectHandle → Value,
      e.eval_expr w = Except.error (EvalError.unresolved_tokens e.errors) := by
    intro w
    simp [WcLangExpression.eval_expr, h]
  refine ⟨by simp [WcLangExpression.extract, h], h2 v, ?_⟩
  simp [WcLangExpression.test_eval_expr, h2 (fun _ => Value.num tv)]

/-- C2 witness: the ambiguous demo expression has a nonempty error list
and is refused by extraction, evaluation and test evaluation. -/
theorem unresolved_expression_refuses_use_witness :
    (make_wc_lang_expr "test_id + obs_id" ObjectKind.Function).errors ≠ [] ∧
    (make_wc_lang_expr "test_id + obs_id" ObjectKind.Function).extract =
      Except.error
        (make_wc_lang_expr "test_id + obs_id" ObjectKind.Function).errors ∧
    (make_wc_lang_expr "test_id + obs_id" ObjectKind.Function).eval_expr
        (fun _ => Value.num 1) =
      Except.error (EvalError.unresolved_tokens
        (make_wc_lang_expr "test_id + obs_id" ObjectKind.Function).errors) ∧
    (make_wc_lang_expr "test_id + obs_id" ObjectKind.Function).test_eval_expr 1 =
      Except.error (EvalError.unresolved_tokens
        (make_wc_lang_expr "test_id + obs_id" ObjectKind.Function).errors) :=
  ⟨by decide,
    (unresolved_expression_refuses_use _ (fun _ => Value.num 1) 1 (by decide)).1,
    (unresolved_expression_refuses_use _ (fun _ => Value.num 1) 1 (by decide)).2.1,
    (unresolved_expression_refuses_use _ (fun _ => Value.num 1) 1 (by decide)).2.2⟩

/-- C3: a qualified `Kind.identifier` occurrence resolves unambiguously
to the named kind with zero errors whenever the kind is valid for the
bearer and contains the id; tokenizing
'Observable.test_id + Parameter.test_id + obs_id' as a Function
expression yields zero errors, resolves the two qualified occurrences to
the Observable and the Parameter respectively, and test evaluation with
test value 2 returns 6. -/
theorem qualified_disambiguation_resolves :
    (∀ (bearer : ObjectKind) (attr kn id : String) (reg : Registry)
        (k : ObjectKind) (h : ObjectHandle),
      kindOfString kn = some k →
      k ∈ valid_used_models bearer →
      Registry.lookupId reg k id = some h →
      resolveIdSpan bearer attr reg (IdSpan.qualified kn id) =
        ([WcLangToken.mk TokCodes.wc_lang_obj_id (kn ++ "." ++ id)
            (some k) (some id) (some h)], [])) ∧
    (make_wc_lang_expr "Observable.test_id + Parameter.test_id + obs_id"
        ObjectKind.Function).errors = [] ∧
    WcLangToken.mk TokCodes.wc_lang_obj_id "Observable.test_id"
        (some ObjectKind.Observable) (some "test_id")
        (some (ObjectHandle.mk ObjectKind.Observable "test_id")) ∈
      (make_wc_lang_expr "Observable.test_id + Parameter.test_id + obs_id"
        ObjectKind.Function).wc_tokens ∧
    WcLangToken.mk TokCodes.wc_lang_obj_id "Parameter.test_id"
        (some ObjectKind.Parameter) (some "test_id")
        (some (ObjectHandle.mk ObjectKind.Parameter "test_id")) ∈
      (make_wc_lang_expr "Observable.test_id + Parameter.test_id + obs_id"
        ObjectKind.Function).wc_tokens ∧
    (make_wc_lang_expr "Observable.test_id + Parameter.test_id + obs_id"
        ObjectKind.Function).test_eval_expr 2 = Except.ok (Value.num 6) := by
  refine ⟨?_, by decide, by decide, by decide, by decide⟩
  intro bearer attr kn id reg k h hk hv hl
  simp [resolveIdSpan, hk, hv, hl]

/-- C3 witness: the qualified-resolution rule applied to
Observable.test_id over the concrete demo registry. -/
theorem qualified_disambiguation_resolves_witness :
    kindOfString "Observable" = some ObjectKind.Observable ∧
    ObjectKind.Observable ∈ valid_used_models ObjectKind.Function ∧
    Registry.lookupId demo_objects ObjectKind.Observable "test_id" =
      some (ObjectHandle.mk ObjectKind.Observable "test_id") ∧
    resolveIdSpan ObjectKind.Function "expr_attr" demo_objects
        (IdSpan.qualified "Observable" "test_id") =
      ([WcLangToken.mk TokCodes.wc_lang_obj_id ("Observable" ++ "." ++ "test_id")
          (some ObjectKind.Observable) (some "test_id")
          (some (ObjectHandle.mk ObjectKind.Observable "test_id"))], []) :=
  ⟨by decide, by decide, by decide,
    qualified_disambiguation_resolves.1 ObjectKind.Function "expr_attr"
      "Observable" "test_id" demo_objects ObjectKind.Observable
      (ObjectHandle.mk ObjectKind.Observable "test_id")
      (by decide) (by decide) (by decide)⟩

/-- C4: for a StopCondition bearer whose expression evaluates (with every
referenced object bound to a fixed test value) to a number rather than a
boolean, test evaluation fails with an EvalError stating the expected
result type is boolean; concretely the StopCondition expression 'a + ddd'
is rejected exactly so, never coerced. -/
theorem stop_condition_numeric_result_rejected :
    (∀ (e : WcLangExpression) (tv q : Q),
      e.model_class = ObjectKind.StopCondition →
      e.eval_expr (fun _ => Value.num tv) = Except.ok (Value.num q) →
      e.test_eval_expr tv =
        Except.error (EvalError.wrong_result_type e.expression
          ObjectKind.StopCondition ValType.boolType ValType.numType)) ∧
    (make_obj_expr ObjectKind.StopCondition "a + ddd").test_eval_expr 1 =
      Except.error (EvalError.wrong_result_type "a + ddd"
        ObjectKind.StopCondition ValType.boolType ValType.numType) := by
  refine ⟨?_, by decide⟩
  intro e tv q hm he
  simp [WcLangExpression.test_eval_expr, he, hm, valType, expected_type]

/-- C4 witness: the StopCondition fixture 'a + ddd' evaluates numerically
to 2 under test value 1, and its test evaluation is rejected with the
boolean-expected error. -/
theorem stop_condition_numeric_result_rejected_witness :
    (make_obj_expr ObjectKind.StopCondition "a + ddd").model_class =
      ObjectKind.StopCondition ∧
    (make_obj_expr ObjectKind.StopCondition "a + ddd").eval_expr
        (fun _ => Value.num 1) = Except.ok (Value.num 2) ∧
    (make_obj_expr ObjectKind.StopCondition "a + ddd").test_eval_expr 1 =
      Except.error (EvalError.wrong_result_type
        (make_obj_expr ObjectKind.StopCondition "a + ddd").expression
        ObjectKind.StopCondition ValType.boolType ValType.numType) :=
  ⟨by decide, by decide,
    stop_condition_numeric_result_rejected.1
      (make_obj_expr ObjectKind.StopCondition "a + ddd") 1 2
      (by decide) (by decide)⟩

/-- C5: tokenizing '2 * fun_1() + obs_id' as a Function expression, where
fun_1 resolves uniquely to the Function object and obs_id uniquely to the
Observable, yields zero errors, and test evaluation with every referenced
object bound to 1 returns 3 (the call to the resolved Function reference
evaluates as its bound value, computing 2*1+1). -/
theorem function_call_expression_evaluates :
    (make_wc_lang_expr "2 * fun_1() + obs_id" ObjectKind.Function).errors = [] ∧
    WcLangToken.mk TokCodes.wc_lang_obj_id "fun_1" (some ObjectKind.Function)
        (some "fun_1") (some (ObjectHandle.mk ObjectKind.Function "fun_1")) ∈
      (make_wc_lang_expr "2 * fun_1() + obs_id" ObjectKind.Function).wc_tokens ∧
    WcLangToken.mk TokCodes.wc_lang_obj_id "obs_id" (some ObjectKind.Observable)
        (some "obs_id") (some (ObjectHandle.mk ObjectKind.Observable "obs_id")) ∈
      (make_wc_lang_expr "2 * fun_1() + obs_id" ObjectKind.Function).wc_tokens ∧
    (make_wc_lang_expr "2 * fun_1() + obs_id" ObjectKind.Function).test_eval_expr
        1 = Except.ok (Value.num 3) := by
  decide

/-- C6: a bare identifier matching no namespace valid for the bearer type
and not whitelisted is classified Other with zero errors; concretely
'3 * 4 + identifier' tokenizes with identifier marked Other and an empty
error list. -/
theorem absent_identifier_marked_other :
    (∀ (bearer : ObjectKind) (attr id : String) (reg : Registry),
      idMatches reg (valid_used_models bearer) id = [] →
      id ∉ valid_functions bearer →
      resolveIdSpan bearer attr reg (IdSpan.plain id) =
        ([WcLangToken.mk TokCodes.other id none none none], [])) ∧
    (make_wc_lang_expr "3 * 4 + identifier" ObjectKind.Function).errors = [] ∧
    WcLangToken.mk TokCodes.other "identifier" none none none ∈
      (make_wc_lang_expr "3 * 4 + identifier" ObjectKind.Function).wc_tokens := by
  refine ⟨?_, by decide, by decide⟩
  intro bearer attr id reg h1 h2
  simp [resolveIdSpan, h1, h2]

/-- C6 witness: the rule applied to 'identifier' over the concrete demo
registry, which contains it in no namespace. -/
theorem absent_identifier_marked_other_witness :
    idMatches demo_objects (valid_used_models ObjectKind.Function)
      "identifier" = [] ∧
    "identifier" ∉ valid_functions ObjectKind.Function ∧
    resolveIdSpan ObjectKind.Function "expr_attr" demo_objects
        (IdSpan.plain "identifier") =
      ([WcLangToken.mk TokCodes.other "identifier" none none none], []) :=
  ⟨by decide, by decide,
    absent_identifier_marked_other.1 ObjectKind.Function "expr_attr"
      "identifier" demo_objects (by decide) (by decide)⟩

/-- C7: for a resolved expression, extraction maps each kind to the
deduplicated set of referenced handles — a handle is extracted for a kind
exactly when some annotated token references it with that kind, and each
per-kind list has no duplicates; for 'ccc + max(a, ddd)' as a Function
expression the mapping is Observables {ccc, ddd}, Parameters {a} and no
Functions. -/
theorem extraction_groups_and_deduplicates :
    (∀ (wts : List WcLangToken) (k : ObjectKind), (extract_deps wts k).Nodup) ∧
    (∀ (wts : List WcLangToken) (k : ObjectKind) (h : ObjectHandle),
      h ∈ extract_deps wts k ↔
        ∃ wt ∈ wts, wt.model_type = some k ∧ wt.model = some h) ∧
    (make_obj_expr ObjectKind.Function "ccc + max(a, ddd)").extract =
      Except.ok
        [(ObjectKind.Observable,
           [ObjectHandle.mk ObjectKind.Observable "ccc",
            ObjectHandle.mk ObjectKind.Observable "ddd"]),
         (ObjectKind.Parameter, [ObjectHandle.mk ObjectKind.Parameter "a"]),
         (ObjectKind.Function, [])] := by
  refine ⟨fun wts k => List.nodup_dedup _, ?_, by decide⟩
  intro wts k h
  simp only [extract_deps, List.mem_dedup, List.mem_filterMap]
  constructor
  · rintro ⟨wt, hwt, hif⟩
    by_cases hk : wt.model_type = some k
    · exact ⟨wt, hwt, hk, by simpa [hk] using hif⟩
    · simp [hk] at hif
  · rintro ⟨wt, hwt, hk, hh⟩
    exact ⟨wt, hwt, by simp [hk, hh]⟩

/-- Helper: every annotated token a single identifier span resolves to
has its three object fields all present (object-reference code) or all
absent (any other code). -/
theorem resolveIdSpan_fields (bearer : ObjectKind) (attr : String)
    (reg : Registry) (s : IdSpan) :
    ∀ wt ∈ (resolveIdSpan bearer attr reg s).1,
      (wt.tok_code = TokCodes.wc_lang_obj_id ∧ wt.model_type ≠ none ∧
        wt.model_id ≠ none ∧ wt.model ≠ none) ∨
      (wt.tok_code ≠ TokCodes.wc_lang_obj_id ∧ wt.model_type = none ∧
        wt.model_id = none ∧ wt.model = none) := by
  intro wt hwt
  cases s with
  | qualified kn id =>
    simp only [resolveIdSpan] at hwt
    split at hwt
    · simp at hwt
    · split at hwt
      · split at hwt
        · simp at hwt
          subst hwt
          left
          simp
        · simp at hwt
      · simp at hwt
  | plain id =>
    simp only [resolveIdSpan] at hwt
    split at hwt
    · split at hwt
      · simp at hwt
        subst hwt
        right
        simp
      · simp at hwt
        subst hwt
        right
        simp
    · simp at hwt
      subst hwt
      left
      simp
    · simp at hwt

/-- Helper: every annotated token resolveItems produces satisfies the
same field discipline. -/
theorem resolveItems_fields (bearer : ObjectKind) (attr : String)
    (reg : Registry) (items : List Item) :
    ∀ wt ∈ (resolveItems bearer attr reg items).1,
      (wt.tok_code = TokCodes.wc_lang_obj_id ∧ wt.model_type ≠ none ∧
        wt.model_id ≠ none ∧ wt.model ≠ none) ∨
      (wt.tok_code ≠ TokCodes.wc_lang_obj_id ∧ wt.model_type = none ∧
        wt.model_id = none ∧ wt.model = none) := by
  induction items with
  | nil =>
    intro wt hwt
    simp [resolveItems] at hwt
  | cons it rest ih =>
    intro wt hwt
    cases it with
    | pass t =>
      simp only [resolveItems] at hwt
      rcases List.mem_cons.mp hwt with h | h
      · subst h
        right
        simp [passTok]
      · exact ih wt h
    | ident s =>
      simp only [resolveItems] at hwt
      rcases List.mem_append.mp hwt with h | h
      · exact resolveIdSpan_fields bearer attr reg s wt h
      · exact ih wt h

/-- C8: every WcToken tokenize produces has object_kind, object_id and
object_ref all present exactly when its code is ObjectReference, and all
absent for whitelisted-function and other tokens. -/
theorem wc_token_fields_all_or_none :
    ∀ (e : WcLangExpression), ∀ wt ∈ e.wc_tokens,
      (wt.tok_code = TokCodes.wc_lang_obj_id ∧ wt.model_type ≠ none ∧
        wt.model_id ≠ none ∧ wt.model ≠ none) ∨
      (wt.tok_code ≠ TokCodes.wc_lang_obj_id ∧ wt.model_type = none ∧
        wt.model_id = none ∧ wt.model = none) := by
  intro e wt hwt
  exact resolveItems_fields e.model_class e.attr e.objects
    (mergeSpans (e.tokens.length + 1) e.tokens) wt hwt

/-- C8 witness: the discipline at the resolved fun_1 token of the
notebook's '2 * fun_1() + obs_id' tokenization. -/
theorem wc_token_fields_all_or_none_witness :
    WcLangToken.mk TokCodes.wc_lang_obj_id "fun_1" (some ObjectKind.Function)
        (some "fun_1") (some (ObjectHandle.mk ObjectKind.Function "fun_1")) ∈
      (make_wc_lang_expr "2 * fun_1() + obs_id" ObjectKind.Function).wc_tokens ∧
    (((WcLangToken.mk TokCodes.wc_lang_obj_id "fun_1" (some ObjectKind.Function)
        (some "fun_1")
        (some (ObjectHandle.mk ObjectKind.Function "fun_1"))).tok_code =
          TokCodes.wc_lang_obj_id ∧
      (WcLangToken.mk TokCodes.wc_lang_obj_id "fun_1" (some ObjectKind.Function)
        (some "fun_1")
        (some (ObjectHandle.mk ObjectKind.Function "fun_1"))).model_type ≠
          none ∧
      (WcLangToken.mk TokCodes.wc_lang_obj_id "fun_1" (some ObjectKind.Function)
        (some "fun_1")
        (some (ObjectHandle.mk ObjectKind.Function "fun_1"))).model_id ≠
          none ∧
      (WcLangToken.mk TokCodes.wc_lang_obj_id "fun_1" (some ObjectKind.Function)
        (some "fun_1")
        (some (ObjectHandle.mk ObjectKind.Function "fun_1"))).model ≠ none) ∨
     ((WcLangToken.mk TokCodes.wc_lang_obj_id "fun_1" (some ObjectKind.Function)
        (some "fun_1")
        (some (ObjectHandle.mk ObjectKind.Function "fun_1"))).tok_code ≠
          TokCodes.wc_lang_obj_id ∧
      (WcLangToken.mk TokCodes.wc_lang_obj_id "fun_1" (some ObjectKind.Function)
        (some "fun_1")
        (some (ObjectHandle.mk ObjectKind.Function "fun_1"))).model_type =
          none ∧
      (WcLangToken.mk TokCodes.wc_lang_obj_id "fun_1" (some ObjectKind.Function)
        (some "fun_1")
        (some (ObjectHandle.mk ObjectKind.Function "fun_1"))).model_id =
          none ∧
      (WcLangToken.mk TokCodes.wc_lang_obj_id "fun_1" (some ObjectKind.Function)
        (some "fun_1")
        (some (ObjectHandle.mk ObjectKind.Function "fun_1"))).model = none)) :=
  ⟨by decide,
    wc_token_fields_all_or_none
      (make_wc_lang_expr "2 * fun_1() + obs_id" ObjectKind.Function)
      (WcLangToken.mk TokCodes.wc_lang_obj_id "fun_1" (some ObjectKind.Function)
        (some "fun_1") (some (ObjectHandle.mk ObjectKind.Function "fun_1")))
      (by decide)⟩

/-! ### The core analyzed-expression token stream recorded in the Math
expressions notebook -/

/-- Transcribed from the recorded output of the Math expressions
notebook: the token codes of wc_lang.core's analyzed expressions comprise
a fourth value `op` (printed as `TokCodes.op: 4`) beside wc_lang_obj_id,
math_fun_id and other. -/
inductive CoreTokCodes
  | wc_lang_obj_id
  | math_fun_id
  | other
  | op
  deriving DecidableEq, Repr

/-- An annotated token of the core analyzed-expression stream. -/
structure CoreWcLangToken where
  tok_code : CoreTokCodes
  token_string : String
  model_type : Option ObjectKind
  model_id : Option String
  model : Option ObjectHandle
  deriving DecidableEq, Repr

/-- Transcribed from the recorded notebook output: the wc_tokens of
fun_1.expression.analyzed_expr for 'ccc + max(a, ddd)'; its operator and
punctuation tokens carry the code op, not other. -/
def fun_1_analyzed_wc_tokens : List CoreWcLangToken :=
  [CoreWcLangToken.mk CoreTokCodes.wc_lang_obj_id "ccc"
     (some ObjectKind.Observable) (some "ccc")
     (some (ObjectHandle.mk ObjectKind.Observable "ccc")),
   CoreWcLangToken.mk CoreTokCodes.op "+" none none none,
   CoreWcLangToken.mk CoreTokCodes.math_fun_id "max" none none none,
   CoreWcLangToken.mk CoreTokCodes.op "(" none none none,
   CoreWcLangToken.mk CoreTokCodes.wc_lang_obj_id "a"
     (some ObjectKind.Parameter) (some "a")
     (some (ObjectHandle.mk ObjectKind.Parameter "a")),
   CoreWcLangToken.mk CoreTokCodes.op "," none none none,
   CoreWcLangToken.mk CoreTokCodes.wc_lang_obj_id "ddd"
     (some ObjectKind.Observable) (some "ddd")
     (some (ObjectHandle.mk ObjectKind.Observable "ddd")),
   CoreWcLangToken.mk CoreTokCodes.op ")" none none none]

/-- C9 counterexample: in the recorded core analyzed-expression stream
for 'ccc + max(a, ddd)', the operator token '+' carries the token code
op — a fourth code distinct from ObjectReference, WhitelistedFunction and
Other — refuting that the annotated-token code type has exactly three
values and that every non-identifier token passes through as Other. -/
theorem fourth_token_code_op_recorded :
    (fun_1_analyzed_wc_tokens.getD 1
        (CoreWcLangToken.mk CoreTokCodes.other "" none none none)).token_string
      = "+" ∧
    (fun_1_analyzed_wc_tokens.getD 1
        (CoreWcLangToken.mk CoreTokCodes.other "" none none none)).tok_code
      = CoreTokCodes.op ∧
    CoreTokCodes.op ≠ CoreTokCodes.wc_lang_obj_id ∧
    CoreTokCodes.op ≠ CoreTokCodes.math_fun_id ∧
    CoreTokCodes.op ≠ CoreTokCodes.other := by
  decide

/-- C9 amended: the expression_utils annotated-token code type has
exactly the three values wc_lang_obj_id, math_fun_id and other, and in
its tokenizer every non-identifier token passes through with code other;
the core analyzed-expression streams additionally use a fourth code op,
carried by operator and punctuation tokens, as the recorded stream for
'ccc + max(a, ddd)' shows. -/
theorem token_code_taxonomy :
    (∀ c : TokCodes, c = TokCodes.wc_lang_obj_id ∨ c = TokCodes.math_fun_id ∨
      c = TokCodes.other) ∧
    (∀ (bearer : ObjectKind) (attr : String) (reg : Registry)
        (items : List Item) (t : Token),
      Item.pass t ∈ items →
        passTok t ∈ (resolveItems bearer attr reg items).1 ∧
        (passTok t).tok_code = TokCodes.other) ∧
    (∀ c : CoreTokCodes, c = CoreTokCodes.wc_lang_obj_id ∨
      c = CoreTokCodes.math_fun_id ∨ c = CoreTokCodes.other ∨
      c = CoreTokCodes.op) ∧
    (∀ ct ∈ fun_1_analyzed_wc_tokens,
      (ct.token_string = "+" ∨ ct.token_string = "(" ∨ ct.token_string = "," ∨
        ct.token_string = ")") → ct.tok_code = CoreTokCodes.op) := by
  refine ⟨?_, ?_, ?_, by decide⟩
  · intro c
    cases c <;> simp
  · intro bearer attr reg items t hmem
    refine ⟨?_, rfl⟩
    induction items with
    | nil => simp at hmem
    | cons it rest ih =>
      rcases List.mem_cons.mp hmem with h | h
      · subst h
        simp only [resolveItems]
        exact List.mem_cons_self _ _
      · cases it with
        | pass t2 =>
          simp only [resolveItems]
          exact List.mem_cons_of_mem _ (ih h)
        | ident s =>
          simp only [resolveItems]
          exact List.mem_append_right _ (ih h)
  · intro c
    cases c <;> simp

/-- C9 amended witness: the pass-through rule at a concrete '+' operator
token and the recorded op-coded '+' token of the core stream. -/
theorem token_code_taxonomy_witness :
    Item.pass (Token.mk TokenKind.Operator "+") ∈
      [Item.ident (IdSpan.plain "obs_id"),
       Item.pass (Token.mk TokenKind.Operator "+")] ∧
    (passTok (Token.mk TokenKind.Operator "+") ∈
      (resolveItems ObjectKind.Function "expr_attr" demo_objects
        [Item.ident (IdSpan.plain "obs_id"),
         Item.pass (Token.mk TokenKind.Operator "+")]).1 ∧
      (passTok (Token.mk TokenKind.Operator "+")).tok_code = TokCodes.other) ∧
    CoreWcLangToken.mk CoreTokCodes.op "+" none none none ∈
      fun_1_analyzed_wc_tokens ∧
    (CoreWcLangToken.mk CoreTokCodes.op "+" none none none).tok_code =
      CoreTokCodes.op :=
  ⟨by decide,
    token_code_taxonomy.2.1 ObjectKind.Function "expr_attr" demo_objects
      [Item.ident (IdSpan.plain "obs_id"),
       Item.pass (Token.mk TokenKind.Operator "+")]
      (Token.mk TokenKind.Operator "+") (by decide),
    by decide,
    token_code_taxonomy.2.2.2
      (CoreWcLangToken.mk CoreTokCodes.op "+" none none none)
      (by decide) (by decide)⟩

/-- C10: the whitelisted-function table for Function expressions is
exactly ceil, floor, exp, pow, log, log10, min and max, and resolution
never classifies a bare name outside this set as a whitelisted function
(it becomes an object reference, an ambiguity error, or an other
token). -/
theorem whitelist_exactly_eight :
    valid_functions ObjectKind.Function =
      ["ceil", "floor", "exp", "pow", "log", "log10", "min", "max"] ∧
    (∀ (attr id : String) (reg : Registry),
      id ∉ valid_functions ObjectKind.Function →
      ∀ wt ∈ (resolveIdSpan ObjectKind.Function attr reg (IdSpan.plain id)).1,
        wt.tok_code ≠ TokCodes.math_fun_id) := by
  refine ⟨rfl, ?_⟩
  intro attr id reg hid wt hwt
  simp only [resolveIdSpan] at hwt
  split at hwt
  · rw [if_neg hid] at hwt
    simp at hwt
    subst hwt
    simp
  · simp at hwt
    subst hwt
    simp
  · simp at hwt

/-- C10 witness: the non-whitelisted bare name 'identifier' resolves to
an other token, not a whitelisted-function token, over the concrete demo
registry. -/
theorem whitelist_exactly_eight_witness :
    "identifier" ∉ valid_functions ObjectKind.Function ∧
    WcLangToken.mk TokCodes.other "identifier" none none none ∈
      (resolveIdSpan ObjectKind.Function "expr_attr" demo_objects
        (IdSpan.plain "identifier")).1 ∧
    (WcLangToken.mk TokCodes.other "identifier" none none none).tok_code ≠
      TokCodes.math_fun_id :=
  ⟨by decide, by decide,
    whitelist_exactly_eight.2 "expr_attr" "identifier" demo_objects (by decide)
      (WcLangToken.mk TokCodes.other "identifier" none none none) (by decide)⟩

end WcLang
